import Mathlib

/-!
Verification of the mv-scene-extractor pipeline (src/mv_scene_extractor.py and
src/mv_scene_gui.py) against its natural-language specification.

Shallow embedding conventions:
* Python floats holding timestamps in seconds are modelled as exact rationals
  (`ℚ`); the data model of the spec defines a Timestamp as a non-negative real
  number of seconds.
* The external capture tool (ffmpeg) is modelled by an oracle
  `Nat → CaptureOutcome` giving, for each 1-based item index, the outcome of
  the `subprocess.run` invocation for that item: normal exit, non-zero exit
  (`subprocess.CalledProcessError` when `check=True`), or the executable not
  being found (`FileNotFoundError`).  A successful capture writes exactly the
  requested output file; a failed capture writes no file.
* Scene detection (PySceneDetect) is modelled by its observable effects: the
  `VideoManager([path])` constructor opens the underlying captures (the GUI
  reads the frame rate from a constructed-but-never-started manager and must
  release it, src/mv_scene_gui.py lines 123-125), `start`/`detect_scenes`
  perform the decoding pass, and `release` frees the decode resource.  The
  scene list and the success of the pass are parameters.
-/

/-- Zero-padding of a natural number to width `w`, as the Python format `f"{n:0wd}"`
produces for non-negative `n`. -/
def padNat (w : Nat) (n : Nat) : String :=
  let s := toString n
  if s.length < w then String.mk (List.replicate (w - s.length) '0') ++ s else s

/-- The Python `str.startswith`, written over the character lists so that it
evaluates inside the kernel. -/
def pyStartsWith (s p : String) : Bool :=
  p.data.isPrefixOf s.data

/-- The Python `int(q)` for a real argument: truncation toward zero. -/
def pyInt (q : ℚ) : ℤ :=
  if 0 ≤ q then ⌊q⌋ else ⌈q⌉

/-- Midpoint of a scene boundary pair, from
`mid_sec = (start.get_seconds() + end.get_seconds()) / 2.0`
(src/mv_scene_extractor.py line 46, src/mv_scene_gui.py line 52). -/
def midSec (s e : ℚ) : ℚ := (s + e) / 2

/-- Round-half-to-even at integer resolution, as the Python fixed-point float
formatting performs when printing with a bounded number of decimals. -/
def roundHalfEven (q : ℚ) : ℤ :=
  if q - ⌊q⌋ < 1 / 2 then ⌊q⌋
  else if 1 / 2 < q - ⌊q⌋ then ⌊q⌋ + 1
  else if ⌊q⌋ % 2 = 0 then ⌊q⌋ else ⌊q⌋ + 1

/-- Hours component: `hours = int(mid_sec // 3600)`
(src/mv_scene_extractor.py line 47); float floor division, so `Int.floor`. -/
def hoursVal (q : ℚ) : ℤ := ⌊q / 3600⌋

/-- Minutes component: `minutes = int((mid_sec % 3600) // 60)`
(src/mv_scene_extractor.py line 48).  For the timestamps at hand the Python
float `%` is `x - 3600 * (x // 3600)`. -/
def minutesVal (q : ℚ) : ℤ := ⌊(q - 3600 * (hoursVal q : ℚ)) / 60⌋

/-- Seconds component before rendering: `seconds = mid_sec % 60`
(src/mv_scene_extractor.py line 49). -/
def secondsRem (q : ℚ) : ℚ := q - 60 * (⌊q / 60⌋ : ℚ)

/-- The seconds field as rendered by `f"{seconds:06.3f}"`, expressed in
milliseconds: the remainder is rounded to three decimal places. -/
def secondsMs (q : ℚ) : ℤ := roundHalfEven (secondsRem q * 1000)

/-- The timecode string `f"{hours:02d}:{minutes:02d}:{seconds:06.3f}"`
(src/mv_scene_extractor.py line 50, src/mv_scene_gui.py line 63).  The
`%06.3f` field zero-pads the integer part of the seconds to two digits and
prints exactly three decimals. -/
def formatTimecode (q : ℚ) : String :=
  padNat 2 (hoursVal q).toNat ++ ":" ++ padNat 2 (minutesVal q).toNat ++ ":" ++
    padNat 2 (secondsMs q / 1000).toNat ++ "." ++ padNat 3 (secondsMs q % 1000).toNat

/-- `calculate_midframes` (src/mv_scene_extractor.py lines 42-52): one
mid-point timecode string per scene boundary pair. -/
def calculate_midframes (scenes : List (ℚ × ℚ)) : List String :=
  scenes.map (fun se => formatTimecode (midSec se.1 se.2))

/-- `calculate_midframes_logic` (src/mv_scene_gui.py lines 40-66): the GUI
variant quantizes the midpoint to a frame index `int(mid_sec * frame_rate)`
first.  `FrameTimecode(...).get_timecode()` is external to the repository and
is modelled from the spec: the frame-quantized path re-derives the
`HH:MM:SS.mmm` display string from `frame / fps`. -/
def calculate_midframes_logic (scenes : List (ℚ × ℚ)) (frame_rate : ℚ) : List String :=
  scenes.map (fun se =>
    formatTimecode ((pyInt (midSec se.1 se.2 * frame_rate) : ℚ) / frame_rate))

/-- Outcome of one `subprocess.run` invocation of the ffmpeg command. -/
inductive CaptureOutcome
  | ok
  | nonZeroExit
  | toolNotFound
deriving DecidableEq

/-- `out_path = os.path.join(output_dir, f"{idx:04d}.{image_ext}")`
(src/mv_scene_extractor.py line 59, src/mv_scene_gui.py line 73). -/
def outPath (output_dir : String) (idx : Nat) (image_ext : String) : String :=
  output_dir ++ "/" ++ padNat 4 idx ++ "." ++ image_ext

/-- Observable result of a batch-extraction call: the files written to disk in
creation order, the error reports delivered through `status_callback` / the
console, and `result = some paths` when the function returned normally with
`paths`, `none` when an exception propagated out of it. -/
structure ExtractState where
  written : List String
  logs : List String
  result : Option (List String)
deriving DecidableEq

/-- Error message sent to `status_callback` on `subprocess.CalledProcessError`
(src/mv_scene_gui.py line 86); the stderr payload is abbreviated. -/
def ffmpegErrorMsg (tc : String) : String := "ffmpeg error for " ++ tc

/-- Message reported when the ffmpeg binary cannot be found
(src/mv_scene_gui.py line 93). -/
def toolMissingMsg : String :=
  "ffmpeg command not found. Please ensure ffmpeg is installed and in your PATH."

/-- Loop body of `extract_frames_logic` (src/mv_scene_gui.py lines 72-98):
successful items append their path and continue; `CalledProcessError` is
reported and the loop continues; `FileNotFoundError` is reported and re-raised,
aborting the loop.  `idx` is the 1-based index of the first item of `tcs`. -/
def extractLoop (outcome : Nat → CaptureOutcome) (output_dir image_ext : String) :
    Nat → List String → ExtractState
  | _, [] => ⟨[], [], some []⟩
  | idx, tc :: rest =>
    match outcome idx with
    | CaptureOutcome.ok =>
      let s := extractLoop outcome output_dir image_ext (idx + 1) rest
      ⟨outPath output_dir idx image_ext :: s.written, s.logs,
        s.result.map (fun l => outPath output_dir idx image_ext :: l)⟩
    | CaptureOutcome.nonZeroExit =>
      let s := extractLoop outcome output_dir image_ext (idx + 1) rest
      ⟨s.written, ffmpegErrorMsg tc :: s.logs, s.result⟩
    | CaptureOutcome.toolNotFound =>
      ⟨[], [toolMissingMsg], none⟩

/-- `extract_frames_logic` (src/mv_scene_gui.py lines 68-99), starting the
enumeration at index 1 as `enumerate(midframe_timecodes, start=1)` does. -/
def extract_frames_logic (outcome : Nat → CaptureOutcome) (output_dir image_ext : String)
    (midframe_timecodes : List String) : ExtractState :=
  extractLoop outcome output_dir image_ext 1 midframe_timecodes

/-- Loop body of the CLI `extract_frames` (src/mv_scene_extractor.py lines
58-63): `subprocess.run` is called without `check=True` and with stderr
discarded, so a non-zero exit is silently ignored and the loop continues; a
`FileNotFoundError` still propagates and aborts the loop. -/
def extractLoopCli (outcome : Nat → CaptureOutcome) (output_dir image_ext : String) :
    Nat → List String → ExtractState
  | _, [] => ⟨[], [], some []⟩
  | idx, _tc :: rest =>
    match outcome idx with
    | CaptureOutcome.ok =>
      let s := extractLoopCli outcome output_dir image_ext (idx + 1) rest
      ⟨outPath output_dir idx image_ext :: s.written, [],
        s.result.map (fun l => outPath output_dir idx image_ext :: l)⟩
    | CaptureOutcome.nonZeroExit =>
      let s := extractLoopCli outcome output_dir image_ext (idx + 1) rest
      ⟨s.written, [], s.result⟩
    | CaptureOutcome.toolNotFound =>
      ⟨[], [], none⟩

/-- `extract_frames` (src/mv_scene_extractor.py lines 55-63). -/
def extract_frames (outcome : Nat → CaptureOutcome) (output_dir image_ext : String)
    (midframes : List String) : ExtractState :=
  extractLoopCli outcome output_dir image_ext 1 midframes

/-- Output paths of exactly the items whose capture succeeded, in input order,
each named by its own 1-based input position. -/
def okPaths (outcome : Nat → CaptureOutcome) (output_dir image_ext : String) :
    Nat → List String → List String
  | _, [] => []
  | idx, _ :: rest =>
    if outcome idx = CaptureOutcome.ok then
      outPath output_dir idx image_ext :: okPaths outcome output_dir image_ext (idx + 1) rest
    else okPaths outcome output_dir image_ext (idx + 1) rest

/-- Error reports for exactly the items that exited non-zero, in input order. -/
def errLogs (outcome : Nat → CaptureOutcome) : Nat → List String → List String
  | _, [] => []
  | idx, tc :: rest =>
    if outcome idx = CaptureOutcome.nonZeroExit then
      ffmpegErrorMsg tc :: errLogs outcome (idx + 1) rest
    else errLogs outcome (idx + 1) rest

/-- Output paths of every item, in input order (the all-success file set). -/
def allPaths (output_dir image_ext : String) : Nat → List String → List String
  | _, [] => []
  | idx, _ :: rest =>
    outPath output_dir idx image_ext :: allPaths output_dir image_ext (idx + 1) rest

/-- Externally visible steps of the scene-detector adapter. -/
inductive DetectEvent
  | openVideo
  | startVideo
  | detectPass
  | releaseVideo
deriving DecidableEq

/-- Result of one `detect_scenes` call: the ordered events performed on the
video resource, the exception that escaped (if any), and the returned scene
list. -/
structure DetectRun where
  trace : List DetectEvent
  error? : Option String
  scenes : List (ℚ × ℚ)
deriving DecidableEq

/-- `detect_scenes` (src/mv_scene_extractor.py lines 14-39).
`video_openable` tells whether `VideoManager([video_path])` succeeds (its
constructor opens the captures and raises on failure); `pass_ok` tells
whether `scene_manager.detect_scenes(...)` completes; `scene_list` is the
list the detector produces when the pass completes.  The source constructs
the `VideoManager` first, then validates the algorithm selector (raising
`ValueError` on an unknown value), then starts the video, runs the pass, and
releases the manager — with no `try/finally` around any of it. -/
def detect_scenes (video_openable : Bool) (algorithm : String) (pass_ok : Bool)
    (scene_list : List (ℚ × ℚ)) : DetectRun :=
  if video_openable then
    if algorithm = "adaptive" ∨ algorithm = "content" ∨ algorithm = "threshold" ∨
        algorithm = "hist" then
      if pass_ok then
        ⟨[DetectEvent.openVideo, DetectEvent.startVideo, DetectEvent.detectPass,
            DetectEvent.releaseVideo], none, scene_list⟩
      else
        ⟨[DetectEvent.openVideo, DetectEvent.startVideo, DetectEvent.detectPass],
          some "exception raised during detection pass", []⟩
    else
      ⟨[DetectEvent.openVideo], some ("Unknown algorithm: " ++ algorithm), []⟩
  else
    ⟨[DetectEvent.openVideo], some "VideoOpenFailure", []⟩

/-- Observable result of the CLI `main` (src/mv_scene_extractor.py lines
66-111): files written, lines printed, and the exception that aborted the run
(if any).  An uncaught exception prints no summary. -/
structure CliRun where
  written : List String
  printed : List String
  error? : Option String
deriving DecidableEq

/-- The CLI orchestrator `main` (src/mv_scene_extractor.py lines 99-111):
detect, compute midframes, extract, then print the two summary lines. -/
def cliMain (video_openable : Bool) (algorithm : String) (pass_ok : Bool)
    (scene_list : List (ℚ × ℚ)) (outcome : Nat → CaptureOutcome) (output : String) : CliRun :=
  let d := detect_scenes video_openable algorithm pass_ok scene_list
  match d.error? with
  | some e => ⟨[], [], some e⟩
  | none =>
    let midframes := calculate_midframes d.scenes
    let st := extract_frames outcome output "jpg" midframes
    match st.result with
    | none => ⟨st.written, [], some "FileNotFoundError"⟩
    | some _ =>
      ⟨st.written,
        ["Detected " ++ toString d.scenes.length ++ " scenes.",
          "Extracted " ++ toString midframes.length ++ " images to " ++ output ++ "/"],
        none⟩

/-- Observable result of the GUI worker `run_extraction_thread_fn`. -/
structure GuiRun where
  statuses : List String
  finalStatus : String
  released : Bool
  extractedPaths : List String
deriving DecidableEq

/-- The `finally` block of `run_extraction_thread_fn` (src/mv_scene_gui.py
lines 304-316): on success it reports the count of images added to the grid;
otherwise it overwrites the current status with a generic failure message
unless that status starts with `"Error:"` or `"ffmpeg error"`. -/
def guiFinalize (successful : Bool) (count : Nat) (output_d lastStatus : String) : String :=
  if successful then
    "Status: Successfully extracted " ++ toString count ++ " images to " ++ output_d ++ "."
  else if pyStartsWith lastStatus "Error:" || pyStartsWith lastStatus "ffmpeg error" then
    lastStatus
  else
    "Status: Extraction failed or was interrupted."

/-- `run_extraction_thread_fn` (src/mv_scene_gui.py lines 227-316) from the
point where the detection pass has completed with `scenes`.  On zero scenes
the function returns early: `video_manager.release()` (line 284) is never
reached and the success flag stays `False`.  Otherwise the manager is
released before `extract_frames_logic` is invoked.  The `str(ex)` payload of
the generic `except` handler is abbreviated. -/
def run_extraction_thread_fn (scenes : List (ℚ × ℚ)) (frame_rate : ℚ)
    (outcome : Nat → CaptureOutcome) (output_d : String) : GuiRun :=
  let pre := ["Status: Initializing video...",
    "Status: Configuring detector...",
    "Status: Starting video processing for scene detection...",
    "Status: Detected " ++ toString scenes.length ++ " scenes. Calculating midframes..."]
  if scenes.isEmpty then
    ⟨pre ++ ["Status: No scenes detected."],
      guiFinalize false 0 output_d "Status: No scenes detected.", false, []⟩
  else
    let midframes := calculate_midframes_logic scenes frame_rate
    if midframes.isEmpty then
      ⟨pre ++ ["Status: No midframes to extract."],
        guiFinalize false 0 output_d "Status: No midframes to extract.", true, []⟩
    else
      let pre2 := pre ++ ["Status: Extracting " ++ toString midframes.length ++
        " images to " ++ output_d ++ "..."]
      let st := extract_frames_logic outcome output_d "jpg" midframes
      match st.result with
      | some paths =>
        let last := "Status: Extraction complete! " ++ toString midframes.length ++
          " images saved to " ++ output_d
        ⟨pre2 ++ st.logs ++ [last], guiFinalize true paths.length output_d last,
          true, paths⟩
      | none =>
        let last := "Error during extraction: FileNotFoundError"
        ⟨pre2 ++ st.logs ++ [last], guiFinalize false 0 output_d last, true, []⟩

/-! ### Lemmas about the extraction loops -/

theorem extractLoop_complete (outcome : Nat → CaptureOutcome) (d e : String) :
    ∀ (tcs : List String) (idx : Nat),
      (∀ k, k < tcs.length → outcome (idx + k) ≠ CaptureOutcome.toolNotFound) →
      extractLoop outcome d e idx tcs =
        ⟨okPaths outcome d e idx tcs, errLogs outcome idx tcs,
          some (okPaths outcome d e idx tcs)⟩
  | [], _, _ => rfl
  | _ :: rest, idx, h => by
    have h0 : outcome idx ≠ CaptureOutcome.toolNotFound := by
      simpa using h 0 (Nat.succ_pos _)
    have hrest : ∀ k, k < rest.length → outcome (idx + 1 + k) ≠ CaptureOutcome.toolNotFound := by
      intro k hk
      have := h (k + 1) (by simpa using Nat.succ_lt_succ hk)
      rwa [show idx + (k + 1) = idx + 1 + k by omega] at this
    have IH := extractLoop_complete outcome d e rest (idx + 1) hrest
    cases hout : outcome idx with
    | ok => simp [extractLoop, okPaths, errLogs, hout, IH]
    | nonZeroExit => simp [extractLoop, okPaths, errLogs, hout, IH]
    | toolNotFound => exact absurd hout h0

theorem extractLoop_abort (outcome : Nat → CaptureOutcome) (d e : String) :
    ∀ (tcs : List String) (idx j : Nat), j < tcs.length →
      outcome (idx + j) = CaptureOutcome.toolNotFound →
      (∀ k, k < j → outcome (idx + k) ≠ CaptureOutcome.toolNotFound) →
      extractLoop outcome d e idx tcs =
        ⟨okPaths outcome d e idx (tcs.take j),
          errLogs outcome idx (tcs.take j) ++ [toolMissingMsg], none⟩
  | [], _, _, hj, _, _ => absurd hj (by simp)
  | _ :: _, idx, 0, _, hj0, _ => by
    rw [Nat.add_zero] at hj0
    simp [extractLoop, hj0, okPaths, errLogs]
  | _ :: rest, idx, j + 1, hj, hjout, hfirst => by
    have h0 : outcome idx ≠ CaptureOutcome.toolNotFound := by
      simpa using hfirst 0 (Nat.succ_pos _)
    have hjout' : outcome (idx + 1 + j) = CaptureOutcome.toolNotFound := by
      rwa [show idx + (j + 1) = idx + 1 + j by omega] at hjout
    have hfirst' : ∀ k, k < j → outcome (idx + 1 + k) ≠ CaptureOutcome.toolNotFound := by
      intro k hk
      have := hfirst (k + 1) (by omega)
      rwa [show idx + (k + 1) = idx + 1 + k by omega] at this
    have IH := extractLoop_abort outcome d e rest (idx + 1) j
      (by simpa using Nat.lt_of_succ_lt_succ hj) hjout' hfirst'
    cases hout : outcome idx with
    | ok => simp [extractLoop, okPaths, errLogs, hout, IH]
    | nonZeroExit => simp [extractLoop, okPaths, errLogs, hout, IH]
    | toolNotFound => exact absurd hout h0

theorem extractLoopCli_complete (outcome : Nat → CaptureOutcome) (d e : String) :
    ∀ (tcs : List String) (idx : Nat),
      (∀ k, k < tcs.length → outcome (idx + k) ≠ CaptureOutcome.toolNotFound) →
      extractLoopCli outcome d e idx tcs =
        ⟨okPaths outcome d e idx tcs, [], some (okPaths outcome d e idx tcs)⟩
  | [], _, _ => rfl
  | _ :: rest, idx, h => by
    have h0 : outcome idx ≠ CaptureOutcome.toolNotFound := by
      simpa using h 0 (Nat.succ_pos _)
    have hrest : ∀ k, k < rest.length → outcome (idx + 1 + k) ≠ CaptureOutcome.toolNotFound := by
      intro k hk
      have := h (k + 1) (by simpa using Nat.succ_lt_succ hk)
      rwa [show idx + (k + 1) = idx + 1 + k by omega] at this
    have IH := extractLoopCli_complete outcome d e rest (idx + 1) hrest
    cases hout : outcome idx with
    | ok => simp [extractLoopCli, okPaths, hout, IH]
    | nonZeroExit => simp [extractLoopCli, okPaths, hout, IH]
    | toolNotFound => exact absurd hout h0

theorem extractLoopCli_abort (outcome : Nat → CaptureOutcome) (d e : String) :
    ∀ (tcs : List String) (idx j : Nat), j < tcs.length →
      outcome (idx + j) = CaptureOutcome.toolNotFound →
      (∀ k, k < j → outcome (idx + k) ≠ CaptureOutcome.toolNotFound) →
      extractLoopCli outcome d e idx tcs =
        ⟨okPaths outcome d e idx (tcs.take j), [], none⟩
  | [], _, _, hj, _, _ => absurd hj (by simp)
  | _ :: _, idx, 0, _, hj0, _ => by
    rw [Nat.add_zero] at hj0
    simp [extractLoopCli, hj0, okPaths]
  | _ :: rest, idx, j + 1, hj, hjout, hfirst => by
    have h0 : outcome idx ≠ CaptureOutcome.toolNotFound := by
      simpa using hfirst 0 (Nat.succ_pos _)
    have hjout' : outcome (idx + 1 + j) = CaptureOutcome.toolNotFound := by
      rwa [show idx + (j + 1) = idx + 1 + j by omega] at hjout
    have hfirst' : ∀ k, k < j → outcome (idx + 1 + k) ≠ CaptureOutcome.toolNotFound := by
      intro k hk
      have := hfirst (k + 1) (by omega)
      rwa [show idx + (k + 1) = idx + 1 + k by omega] at this
    have IH := extractLoopCli_abort outcome d e rest (idx + 1) j
      (by simpa using Nat.lt_of_succ_lt_succ hj) hjout' hfirst'
    cases hout : outcome idx with
    | ok => simp [extractLoopCli, okPaths, hout, IH]
    | nonZeroExit => simp [extractLoopCli, okPaths, hout, IH]
    | toolNotFound => exact absurd hout h0

theorem okPaths_sublist (outcome : Nat → CaptureOutcome) (d e : String) :
    ∀ (tcs : List String) (idx : Nat),
      (okPaths outcome d e idx tcs).Sublist (allPaths d e idx tcs)
  | [], _ => List.Sublist.refl _
  | _ :: rest, idx => by
    by_cases h : outcome idx = CaptureOutcome.ok
    · simpa [okPaths, allPaths, h] using
        (okPaths_sublist outcome d e rest (idx + 1)).cons₂ (outPath d idx e)
    · simpa [okPaths, allPaths, h] using
        (okPaths_sublist outcome d e rest (idx + 1)).cons (outPath d idx e)

theorem okPaths_all_ok (outcome : Nat → CaptureOutcome) (d e : String) :
    ∀ (tcs : List String) (idx : Nat),
      (∀ k, k < tcs.length → outcome (idx + k) = CaptureOutcome.ok) →
      okPaths outcome d e idx tcs = allPaths d e idx tcs
  | [], _, _ => rfl
  | _ :: rest, idx, h => by
    have h0 : outcome idx = CaptureOutcome.ok := by simpa using h 0 (Nat.succ_pos _)
    have hrest : ∀ k, k < rest.length → outcome (idx + 1 + k) = CaptureOutcome.ok := by
      intro k hk
      have := h (k + 1) (by simpa using Nat.succ_lt_succ hk)
      rwa [show idx + (k + 1) = idx + 1 + k by omega] at this
    simp [okPaths, allPaths, h0, okPaths_all_ok outcome d e rest (idx + 1) hrest]

theorem allPaths_length (d e : String) :
    ∀ (tcs : List String) (idx : Nat), (allPaths d e idx tcs).length = tcs.length
  | [], _ => rfl
  | _ :: rest, idx => by simp [allPaths, allPaths_length d e rest (idx + 1)]

theorem okPaths_eq_filter (outcome : Nat → CaptureOutcome) (d e : String) :
    ∀ (tcs : List String) (idx : Nat),
      okPaths outcome d e idx tcs =
        ((List.range tcs.length).filter
            (fun i => decide (outcome (idx + i) = CaptureOutcome.ok))).map
          (fun i => outPath d (idx + i) e)
  | [], _ => rfl
  | _ :: rest, idx => by
    have IH := okPaths_eq_filter outcome d e rest (idx + 1)
    have hfun : (fun i => decide (outcome (idx + Nat.succ i) = CaptureOutcome.ok)) =
        (fun i => decide (outcome (idx + 1 + i) = CaptureOutcome.ok)) := by
      funext i
      rw [show idx + Nat.succ i = idx + 1 + i by omega]
    have hfun2 : (fun i => outPath d (idx + Nat.succ i) e) =
        (fun i => outPath d (idx + 1 + i) e) := by
      funext i
      rw [show idx + Nat.succ i = idx + 1 + i by omega]
    by_cases h : outcome idx = CaptureOutcome.ok
    · simp only [okPaths, h, if_pos, List.length_cons, List.range_succ_eq_map,
        List.filter_cons, List.filter_map, List.map_map, Nat.add_zero, decide_eq_true_eq]
      simp only [Function.comp_def, hfun, hfun2, IH]
      simp [h]
      intro a _ _
      rw [show idx + (a + 1) = idx + 1 + a by omega]
    · simp only [okPaths, h, if_neg, List.length_cons, List.range_succ_eq_map,
        List.filter_cons, List.filter_map, List.map_map, Nat.add_zero, decide_eq_true_eq]
      simp only [Function.comp_def, hfun, hfun2, IH]
      simp [h]
      intro a _ _
      rw [show idx + (a + 1) = idx + 1 + a by omega]

/-! ### Lemmas about the timecode converter -/

theorem roundHalfEven_intCast (z : ℤ) : roundHalfEven (z : ℚ) = z := by
  rw [roundHalfEven, Int.floor_intCast]
  norm_num

theorem roundHalfEven_up (q : ℚ) (z : ℤ) (hf : ⌊q⌋ = z) (h2 : 1 / 2 < q - (z : ℚ)) :
    roundHalfEven q = z + 1 := by
  rw [roundHalfEven, hf, if_neg (by linarith), if_pos h2]

theorem minutesVal_eq_mod (q : ℚ) : minutesVal q = ⌊q / 60⌋ % 60 := by
  have hfl : (hoursVal q : ℚ) ≤ q / 3600 := Int.floor_le _
  have hfl2 : q / 3600 < (hoursVal q : ℚ) + 1 := Int.lt_floor_add_one _
  have h0 : (0 : ℚ) ≤ q - 3600 * (hoursVal q : ℚ) := by linarith
  have h1 : q - 3600 * (hoursVal q : ℚ) < 3600 := by linarith
  have key : q / 60 = ((60 * hoursVal q : ℤ) : ℚ) + (q - 3600 * (hoursVal q : ℚ)) / 60 := by
    push_cast
    ring
  have hfloor : ⌊q / 60⌋ = 60 * hoursVal q + minutesVal q := by
    rw [key, Int.floor_int_add, ← minutesVal]
  have hm0 : 0 ≤ minutesVal q := by
    rw [minutesVal]
    exact Int.floor_nonneg.mpr (by linarith)
  have hm1 : minutesVal q < 60 := by
    rw [minutesVal]
    refine Int.floor_lt.mpr ?_
    push_cast
    linarith
  omega

theorem formatTimecode_eval (q : ℚ) (H M S : ℤ)
    (hH : hoursVal q = H) (hM : minutesVal q = M) (hS : secondsMs q = S) :
    formatTimecode q =
      padNat 2 H.toNat ++ ":" ++ padNat 2 M.toNat ++ ":" ++
        padNat 2 (S / 1000).toNat ++ "." ++ padNat 3 (S % 1000).toNat := by
  rw [formatTimecode, hH, hM, hS]

theorem ft_75_5 : formatTimecode (151 / 2) = "00:01:15.500" := by
  have hH : hoursVal (151 / 2 : ℚ) = 0 := by
    rw [hoursVal]
    norm_num [Int.floor_eq_iff]
  have hM : minutesVal (151 / 2 : ℚ) = 1 := by
    rw [minutesVal, hH]
    norm_num [Int.floor_eq_iff]
  have h60 : (⌊(151 / 2 : ℚ) / 60⌋ : ℤ) = 1 := by
    norm_num [Int.floor_eq_iff]
  have hrem : secondsRem (151 / 2 : ℚ) * 1000 = ((15500 : ℤ) : ℚ) := by
    rw [secondsRem, h60]
    norm_num
  have hS : secondsMs (151 / 2 : ℚ) = 15500 := by
    rw [secondsMs, hrem, roundHalfEven_intCast]
  rw [formatTimecode_eval (151 / 2) 0 1 15500 hH hM hS]
  decide

theorem ft_3661_25 : formatTimecode (14645 / 4) = "01:01:01.250" := by
  have hH : hoursVal (14645 / 4 : ℚ) = 1 := by
    rw [hoursVal]
    norm_num [Int.floor_eq_iff]
  have hM : minutesVal (14645 / 4 : ℚ) = 1 := by
    rw [minutesVal, hH]
    norm_num [Int.floor_eq_iff]
  have h60 : (⌊(14645 / 4 : ℚ) / 60⌋ : ℤ) = 61 := by
    norm_num [Int.floor_eq_iff]
  have hrem : secondsRem (14645 / 4 : ℚ) * 1000 = ((1250 : ℤ) : ℚ) := by
    rw [secondsRem, h60]
    norm_num
  have hS : secondsMs (14645 / 4 : ℚ) = 1250 := by
    rw [secondsMs, hrem, roundHalfEven_intCast]
  rw [formatTimecode_eval (14645 / 4) 1 1 1250 hH hM hS]
  decide

theorem ft_90061_25 : formatTimecode (360245 / 4) = "25:01:01.250" := by
  have hH : hoursVal (360245 / 4 : ℚ) = 25 := by
    rw [hoursVal]
    norm_num [Int.floor_eq_iff]
  have hM : minutesVal (360245 / 4 : ℚ) = 1 := by
    rw [minutesVal, hH]
    norm_num [Int.floor_eq_iff]
  have h60 : (⌊(360245 / 4 : ℚ) / 60⌋ : ℤ) = 1501 := by
    norm_num [Int.floor_eq_iff]
  have hrem : secondsRem (360245 / 4 : ℚ) * 1000 = ((1250 : ℤ) : ℚ) := by
    rw [secondsRem, h60]
    norm_num
  have hS : secondsMs (360245 / 4 : ℚ) = 1250 := by
    rw [secondsMs, hrem, roundHalfEven_intCast]
  rw [formatTimecode_eval (360245 / 4) 25 1 1250 hH hM hS]
  decide

/-! ### Claims about the timecode converter -/

/-- C1: For every scene boundary pair (start, end) with start < end, the
midpoint computation returns exactly `(start_seconds + end_seconds) / 2`, with
no rounding before final formatting (the unrounded value is what is handed to
the formatter), and the value lies in the closed interval [start, end]; in
particular for start = 10.0, end = 20.0 the midpoint is 15.0. -/
theorem C1_midpoint_in_interval (s e : ℚ) (h : s < e) :
    midSec s e = (s + e) / 2 ∧ s ≤ midSec s e ∧ midSec s e ≤ e ∧
    calculate_midframes [(s, e)] = [formatTimecode (midSec s e)] ∧
    midSec 10 20 = 15 := by
  refine ⟨rfl, ?_, ?_, rfl, by norm_num [midSec]⟩
  · rw [midSec]
    linarith
  · rw [midSec]
    linarith

/-- Witness for C1 at the concrete boundary pair (10, 20). -/
theorem C1_witness :
    (10 : ℚ) < 20 ∧ (10 : ℚ) ≤ midSec 10 20 ∧ midSec 10 20 ≤ 20 ∧ midSec 10 20 = 15 := by
  have h := C1_midpoint_in_interval 10 20 (by norm_num)
  exact ⟨by norm_num, h.2.1, h.2.2.1, h.2.2.2.2⟩

/-- C2: For every non-negative timestamp the formatter renders a zero-padded
`HH:MM:SS.mmm` string with exactly 3 decimal places; the hour field is the
plain floor division `⌊q / 3600⌋` (no 24-hour wraparound), the minute field is
the floor division `⌊q / 60⌋ % 60`, and the seconds field carries the
fractional remainder; `format 75.5 = "00:01:15.500"`,
`format 3661.25 = "01:01:01.250"`, and a 25-hour input keeps its hour count. -/
theorem C2_format_hms (q : ℚ) (h : 0 ≤ q) :
    formatTimecode q =
      padNat 2 (Int.toNat ⌊q / 3600⌋) ++ ":" ++
        padNat 2 (Int.toNat (⌊q / 60⌋ % 60)) ++ ":" ++
        padNat 2 (Int.toNat (secondsMs q / 1000)) ++ "." ++
        padNat 3 (Int.toNat (secondsMs q % 1000)) ∧
    formatTimecode (151 / 2) = "00:01:15.500" ∧
    formatTimecode (14645 / 4) = "01:01:01.250" ∧
    formatTimecode (360245 / 4) = "25:01:01.250" := by
  refine ⟨?_, ft_75_5, ft_3661_25, ft_90061_25⟩
  rw [formatTimecode, minutesVal_eq_mod, hoursVal]

/-- Witness for C2 at the concrete timestamp 75.5 seconds. -/
theorem C2_witness :
    (0 : ℚ) ≤ 151 / 2 ∧ formatTimecode (151 / 2) = "00:01:15.500" :=
  ⟨by norm_num, (C2_format_hms (151 / 2) (by norm_num)).2.1⟩

/-- C7 counterexample: at the non-negative timestamp 59.9999 s the rendered
seconds field is exactly `60.000` (the remainder 59.9999 rounds up to three
decimals), so the formatted string does not keep the seconds component in
[0, 60): the claim fails as stated. -/
theorem C7_counterexample :
    (0 : ℚ) ≤ 599999 / 10000 ∧ secondsMs (599999 / 10000) = 60000 ∧
    formatTimecode (599999 / 10000) = "00:00:60.000" := by
  have hH : hoursVal (599999 / 10000 : ℚ) = 0 := by
    rw [hoursVal]
    norm_num [Int.floor_eq_iff]
  have h60 : (⌊(599999 / 10000 : ℚ) / 60⌋ : ℤ) = 0 := by
    norm_num [Int.floor_eq_iff]
  have hM : minutesVal (599999 / 10000 : ℚ) = 0 := by
    rw [minutesVal, hH]
    norm_num [Int.floor_eq_iff]
  have hfl : (⌊secondsRem (599999 / 10000 : ℚ) * 1000⌋ : ℤ) = 59999 := by
    rw [secondsRem, h60]
    norm_num [Int.floor_eq_iff]
  have hS : secondsMs (599999 / 10000 : ℚ) = 60000 := by
    rw [secondsMs, roundHalfEven_up _ 59999 hfl (by rw [secondsRem, h60]; norm_num)]
    norm_num
  refine ⟨by norm_num, hS, ?_⟩
  rw [formatTimecode_eval _ 0 0 60000 hH hM hS]
  decide

/-- C7 (amended): for every non-negative timestamp that is a whole number of
milliseconds — the precision the invariant demands losslessness for — the
minute component lies in [0, 60), the rendered seconds field lies in [0, 60)
(its integer part is at most 59, never rendering `60.000`), and
`hours/minutes/seconds-milliseconds` recompose the timestamp exactly
(lossless millisecond representation, hours unbounded).  For timestamps that
are not on the millisecond grid, the rounding of the seconds field can render
`60.000` (see the counterexample). -/
theorem C7_millisecond_timestamp_invariant (n : ℕ) :
    0 ≤ minutesVal ((n : ℚ) / 1000) ∧ minutesVal ((n : ℚ) / 1000) < 60 ∧
    0 ≤ secondsMs ((n : ℚ) / 1000) ∧ secondsMs ((n : ℚ) / 1000) < 60000 ∧
    secondsMs ((n : ℚ) / 1000) / 1000 < 60 ∧
    3600000 * hoursVal ((n : ℚ) / 1000) + 60000 * minutesVal ((n : ℚ) / 1000) +
      secondsMs ((n : ℚ) / 1000) = n := by
  have h1 : hoursVal ((n : ℚ) / 1000) = (n : ℤ) / 3600000 := by
    rw [hoursVal]
    rw [show ((n : ℚ) / 1000) / 3600 = (((n : ℤ) : ℚ)) / ((3600000 : ℕ) : ℚ) by
      push_cast; ring]
    exact Rat.floor_intCast_div_natCast n 3600000
  have h2 : minutesVal ((n : ℚ) / 1000) =
      ((n : ℤ) - 3600000 * ((n : ℤ) / 3600000)) / 60000 := by
    rw [minutesVal, h1]
    rw [show ((n : ℚ) / 1000 - 3600 * (((n : ℤ) / 3600000 : ℤ) : ℚ)) / 60 =
        ((((n : ℤ) - 3600000 * ((n : ℤ) / 3600000) : ℤ)) : ℚ) / ((60000 : ℕ) : ℚ) by
      push_cast; ring]
    exact Rat.floor_intCast_div_natCast _ 60000
  have h3 : (⌊((n : ℚ) / 1000) / 60⌋ : ℤ) = (n : ℤ) / 60000 := by
    rw [show ((n : ℚ) / 1000) / 60 = (((n : ℤ) : ℚ)) / ((60000 : ℕ) : ℚ) by
      push_cast; ring]
    exact Rat.floor_intCast_div_natCast n 60000
  have h4 : secondsMs ((n : ℚ) / 1000) = (n : ℤ) - 60000 * ((n : ℤ) / 60000) := by
    rw [secondsMs, secondsRem, h3]
    rw [show ((n : ℚ) / 1000 - 60 * (((n : ℤ) / 60000 : ℤ) : ℚ)) * 1000 =
        (((n : ℤ) - 60000 * ((n : ℤ) / 60000) : ℤ) : ℚ) by push_cast; ring]
    exact roundHalfEven_intCast _
  rw [h1, h2, h4]
  omega

/-! ### Claims about the frame extractor -/

/-- C3 counterexample: in the CLI extractor a per-item capture failure leaves
no record at all.  With outcomes (non-zero exit, ok) a per-item capture
failure occurs at item 1 and the batch continues to completion — yet the run
produces an empty log: `subprocess.run` is called without `check=True` and
with stderr discarded (src/mv_scene_extractor.py lines 60-63), so the failure
is neither logged nor reported, refuting the claim that per-item capture
failures are logged/reported. -/
theorem C3_counterexample :
    (extract_frames
        (fun i => if i = 1 then CaptureOutcome.nonZeroExit else CaptureOutcome.ok)
        "out" "jpg" ["a", "b"]).logs = [] ∧
    (extract_frames
        (fun i => if i = 1 then CaptureOutcome.nonZeroExit else CaptureOutcome.ok)
        "out" "jpg" ["a", "b"]).result = some ["out/0002.jpg"] ∧
    (extract_frames
        (fun i => if i = 1 then CaptureOutcome.nonZeroExit else CaptureOutcome.ok)
        "out" "jpg" ["a", "b"]).written = ["out/0002.jpg"] := by
  decide

/-- C3 (amended): during batch extraction a per-item capture failure
(non-zero exit) does not abort the remaining items in either extractor; it is
logged/reported through the status observer only in the GUI extractor, whose
logs are exactly the error reports of the failing items, while the CLI
extractor silently ignores it (its log is always empty).  The first failure
to locate the ffmpeg binary itself aborts the batch immediately in both (no
normal return), and the image files already written by earlier successful
items remain — the written list is exactly the successful items before the
abort point, with no cleanup or rollback. -/
theorem C3_per_item_failure_policy (outcome : Nat → CaptureOutcome) (d e : String)
    (tcs : List String) :
    ((∀ k, k < tcs.length → outcome (1 + k) ≠ CaptureOutcome.toolNotFound) →
      (extract_frames_logic outcome d e tcs).result =
          some (okPaths outcome d e 1 tcs) ∧
      (extract_frames_logic outcome d e tcs).logs = errLogs outcome 1 tcs ∧
      (extract_frames outcome d e tcs).result = some (okPaths outcome d e 1 tcs) ∧
      (extract_frames outcome d e tcs).logs = []) ∧
    (∀ j, j < tcs.length → outcome (1 + j) = CaptureOutcome.toolNotFound →
      (∀ k, k < j → outcome (1 + k) ≠ CaptureOutcome.toolNotFound) →
      (extract_frames_logic outcome d e tcs).result = none ∧
      (extract_frames_logic outcome d e tcs).written = okPaths outcome d e 1 (tcs.take j) ∧
      (extract_frames outcome d e tcs).result = none ∧
      (extract_frames outcome d e tcs).written = okPaths outcome d e 1 (tcs.take j) ∧
      (extract_frames outcome d e tcs).logs = []) := by
  constructor
  · intro h
    rw [extract_frames_logic, extractLoop_complete outcome d e tcs 1 h,
      extract_frames, extractLoopCli_complete outcome d e tcs 1 h]
    exact ⟨rfl, rfl, rfl, rfl⟩
  · intro j hj hjo hf
    rw [extract_frames_logic, extractLoop_abort outcome d e tcs 1 j hj hjo hf,
      extract_frames, extractLoopCli_abort outcome d e tcs 1 j hj hjo hf]
    exact ⟨rfl, rfl, rfl, rfl, rfl⟩

/-- Witness for C3 (amended): with outcomes (ok, non-zero exit, tool missing)
the run aborts at item 3 and the file of item 1 remains on disk; with
outcomes (ok, non-zero exit, ok) the GUI run completes and the failure of
item 2 is logged, while the CLI run completes with an empty log. -/
theorem C3_witness :
    (extract_frames_logic
        (fun i => if i = 3 then CaptureOutcome.toolNotFound
          else if i = 2 then CaptureOutcome.nonZeroExit else CaptureOutcome.ok)
        "out" "jpg" ["a", "b", "c"]).result = none ∧
    (extract_frames_logic
        (fun i => if i = 3 then CaptureOutcome.toolNotFound
          else if i = 2 then CaptureOutcome.nonZeroExit else CaptureOutcome.ok)
        "out" "jpg" ["a", "b", "c"]).written = ["out/0001.jpg"] ∧
    (extract_frames_logic
        (fun i => if i = 2 then CaptureOutcome.nonZeroExit else CaptureOutcome.ok)
        "out" "jpg" ["a", "b", "c"]).result = some ["out/0001.jpg", "out/0003.jpg"] ∧
    (extract_frames_logic
        (fun i => if i = 2 then CaptureOutcome.nonZeroExit else CaptureOutcome.ok)
        "out" "jpg" ["a", "b", "c"]).logs = [ffmpegErrorMsg "b"] ∧
    (extract_frames
        (fun i => if i = 2 then CaptureOutcome.nonZeroExit else CaptureOutcome.ok)
        "out" "jpg" ["a", "b", "c"]).logs = [] := by
  have h1 := (C3_per_item_failure_policy
      (fun i => if i = 3 then CaptureOutcome.toolNotFound
        else if i = 2 then CaptureOutcome.nonZeroExit else CaptureOutcome.ok)
      "out" "jpg" ["a", "b", "c"]).2 2 (by decide) (by decide) (by decide)
  have h2 := (C3_per_item_failure_policy
      (fun i => if i = 2 then CaptureOutcome.nonZeroExit else CaptureOutcome.ok)
      "out" "jpg" ["a", "b", "c"]).1 (by decide)
  refine ⟨h1.1, ?_, ?_, ?_, h2.2.2.2⟩
  · rw [h1.2.1]
    decide
  · rw [h2.1]
    decide
  · rw [h2.2.1]
    decide

/-- C4: Given N input timecodes (one per scene boundary) and a reachable
capture tool, the extractor addresses exactly the N output names
`0001.<ext> … NNNN.<ext>`, in input (scene) order: when every capture
succeeds, exactly those N files are created in that order; when some items
fail, the file of each failed item is absent — leaving a gap at its own 1-indexed
name rather than shifting later names — and the failure is flagged in the
GUI status log, never silently renumbered. -/
theorem C4_output_naming (outcome : Nat → CaptureOutcome) (d e : String)
    (tcs : List String)
    (h : ∀ k, k < tcs.length → outcome (1 + k) ≠ CaptureOutcome.toolNotFound) :
    (extract_frames_logic outcome d e tcs).written = okPaths outcome d e 1 tcs ∧
    (extract_frames outcome d e tcs).written = okPaths outcome d e 1 tcs ∧
    (extract_frames_logic outcome d e tcs).logs = errLogs outcome 1 tcs ∧
    (okPaths outcome d e 1 tcs).Sublist (allPaths d e 1 tcs) ∧
    (allPaths d e 1 tcs).length = tcs.length ∧
    ((∀ k, k < tcs.length → outcome (1 + k) = CaptureOutcome.ok) →
      (extract_frames_logic outcome d e tcs).written = allPaths d e 1 tcs) := by
  rw [extract_frames_logic, extractLoop_complete outcome d e tcs 1 h,
    extract_frames, extractLoopCli_complete outcome d e tcs 1 h]
  refine ⟨rfl, rfl, rfl, okPaths_sublist outcome d e tcs 1,
    allPaths_length d e tcs 1, ?_⟩
  intro hall
  exact okPaths_all_ok outcome d e tcs 1 hall

/-- Witness for C4: three items where item 2 fails leave files 0001 and 0003
(gap at 0002); three successful items give exactly 0001, 0002, 0003. -/
theorem C4_witness :
    (extract_frames_logic
        (fun i => if i = 2 then CaptureOutcome.nonZeroExit else CaptureOutcome.ok)
        "out" "jpg" ["a", "b", "c"]).written = ["out/0001.jpg", "out/0003.jpg"] ∧
    (extract_frames_logic (fun _ => CaptureOutcome.ok) "out" "jpg"
        ["a", "b", "c"]).written = ["out/0001.jpg", "out/0002.jpg", "out/0003.jpg"] := by
  have h1 := C4_output_naming
      (fun i => if i = 2 then CaptureOutcome.nonZeroExit else CaptureOutcome.ok)
      "out" "jpg" ["a", "b", "c"] (by decide)
  have h2 := C4_output_naming (fun _ => CaptureOutcome.ok) "out" "jpg" ["a", "b", "c"]
      (by decide)
  constructor
  · rw [h1.1]
    decide
  · rw [h2.2.2.2.2.2 (by decide)]
    decide

/-- C10: When the capture tool can be started for every item, the GUI
extraction returns exactly the output paths of the items whose capture
invocation succeeded — the filter of the 1-indexed input positions by success,
mapped to their output names, in input order (an order-preserving sublist of
the all-success name sequence); a failed item contributes no entry. -/
theorem C10_returns_successful_paths (outcome : Nat → CaptureOutcome) (d e : String)
    (tcs : List String)
    (h : ∀ k, k < tcs.length → outcome (1 + k) ≠ CaptureOutcome.toolNotFound) :
    (extract_frames_logic outcome d e tcs).result =
      some (((List.range tcs.length).filter
          (fun i => decide (outcome (1 + i) = CaptureOutcome.ok))).map
        (fun i => outPath d (1 + i) e)) ∧
    (((List.range tcs.length).filter
        (fun i => decide (outcome (1 + i) = CaptureOutcome.ok))).map
      (fun i => outPath d (1 + i) e)).Sublist (allPaths d e 1 tcs) := by
  have hk := okPaths_eq_filter outcome d e tcs 1
  constructor
  · rw [extract_frames_logic, extractLoop_complete outcome d e tcs 1 h, ← hk]
  · rw [← hk]
    exact okPaths_sublist outcome d e tcs 1

/-- Witness for C10: two items where item 1 fails return exactly
the path of item 2. -/
theorem C10_witness :
    (extract_frames_logic
        (fun i => if i = 1 then CaptureOutcome.nonZeroExit else CaptureOutcome.ok)
        "out" "jpg" ["a", "b"]).result = some ["out/0002.jpg"] := by
  have h := (C10_returns_successful_paths
      (fun i => if i = 1 then CaptureOutcome.nonZeroExit else CaptureOutcome.ok)
      "out" "jpg" ["a", "b"] (by decide)).1
  rw [h]
  decide

/-! ### Claims about the scene detector adapter and the orchestrators -/

/-- C5 counterexample: with the unknown selector "foo" the adapter does raise
the configuration error `Unknown algorithm: foo`, but only after
`VideoManager([video_path])` has already been constructed — which opens the
underlying video captures — so the video source is opened before the selector
is validated, refuting the claim that no video source is opened first. -/
theorem C5_counterexample :
    (detect_scenes true "foo" true []).error? = some "Unknown algorithm: foo" ∧
    DetectEvent.openVideo ∈ (detect_scenes true "foo" true []).trace := by
  decide

/-- C5 (amended): for every selector value outside
{adaptive, content, threshold, hist} the adapter fails with the configuration
error `Unknown algorithm: <value>` before the detection pass begins — the
trace shows no `startVideo` and no `detectPass` (and no release) — but after
the video source has been constructed and opened (`openVideo` has occurred). -/
theorem C5_unknown_algorithm_after_open (algorithm : String) (pass_ok : Bool)
    (scene_list : List (ℚ × ℚ))
    (h : ¬(algorithm = "adaptive" ∨ algorithm = "content" ∨ algorithm = "threshold" ∨
      algorithm = "hist")) :
    (detect_scenes true algorithm pass_ok scene_list).error? =
      some ("Unknown algorithm: " ++ algorithm) ∧
    (detect_scenes true algorithm pass_ok scene_list).trace = [DetectEvent.openVideo] := by
  rw [detect_scenes, if_pos rfl, if_neg h]
  exact ⟨rfl, rfl⟩

/-- Witness for C5 (amended) at the concrete unknown selector "foo". -/
theorem C5_witness :
    ¬("foo" = "adaptive" ∨ "foo" = "content" ∨ "foo" = "threshold" ∨ "foo" = "hist") ∧
    (detect_scenes true "foo" true []).trace = [DetectEvent.openVideo] := by
  refine ⟨by decide, (C5_unknown_algorithm_after_open "foo" true [] (by decide)).2⟩

/-- C6 counterexample: when the detection pass raises, `detect_scenes` never
reaches `video_manager.release()` — there is no try/finally — so the decode
resource is not released on the failure path, refuting the unconditional
release claim. -/
theorem C6_counterexample :
    (detect_scenes true "adaptive" false []).error? =
      some "exception raised during detection pass" ∧
    DetectEvent.releaseVideo ∉ (detect_scenes true "adaptive" false []).trace := by
  decide

/-- C6 (amended): the decode resource is released when the detection pass
completes successfully — as the final step of the adapter, hence before any
extraction (the orchestrators invoke extraction only after the adapter
returns), and the GUI thread releases the manager before calling its
extractor whenever at least one scene was found — but when the detection pass
raises, the release is skipped (no finally), so the release is not
unconditional. -/
theorem C6_release_only_on_success (algorithm : String) (scene_list : List (ℚ × ℚ))
    (frame_rate : ℚ) (outcome : Nat → CaptureOutcome) (d : String)
    (halg : algorithm = "adaptive" ∨ algorithm = "content" ∨ algorithm = "threshold" ∨
      algorithm = "hist")
    (hne : scene_list ≠ []) :
    (detect_scenes true algorithm true scene_list).trace =
      [DetectEvent.openVideo, DetectEvent.startVideo, DetectEvent.detectPass,
        DetectEvent.releaseVideo] ∧
    (detect_scenes true algorithm true scene_list).error? = none ∧
    DetectEvent.releaseVideo ∉ (detect_scenes true algorithm false scene_list).trace ∧
    (run_extraction_thread_fn scene_list frame_rate outcome d).released = true := by
  have h1 : detect_scenes true algorithm true scene_list =
      ⟨[DetectEvent.openVideo, DetectEvent.startVideo, DetectEvent.detectPass,
        DetectEvent.releaseVideo], none, scene_list⟩ := by
    rw [detect_scenes, if_pos rfl, if_pos halg, if_pos rfl]
  have h2 : detect_scenes true algorithm false scene_list =
      ⟨[DetectEvent.openVideo, DetectEvent.startVideo, DetectEvent.detectPass],
        some "exception raised during detection pass", []⟩ := by
    rw [detect_scenes, if_pos rfl, if_pos halg, if_neg (by simp)]
  have hne' : scene_list.isEmpty = false := by
    simpa [List.isEmpty_iff] using hne
  refine ⟨by rw [h1], by rw [h1], by rw [h2]; decide, ?_⟩
  by_cases hmf : (calculate_midframes_logic scene_list frame_rate).isEmpty
  · simp [run_extraction_thread_fn, hne', hmf]
  · rcases hres : (extract_frames_logic outcome d "jpg"
        (calculate_midframes_logic scene_list frame_rate)).result with _ | p
    · simp [run_extraction_thread_fn, hne', hmf, hres]
    · simp [run_extraction_thread_fn, hne', hmf, hres]

/-- Witness for C6 (amended) at a concrete valid configuration with one
detected scene. -/
theorem C6_witness :
    (detect_scenes true "adaptive" true [((0 : ℚ), 2)]).trace =
      [DetectEvent.openVideo, DetectEvent.startVideo, DetectEvent.detectPass,
        DetectEvent.releaseVideo] ∧
    (run_extraction_thread_fn [((0 : ℚ), 2)] 30 (fun _ => CaptureOutcome.ok)
        "out").released = true := by
  have h := C6_release_only_on_success "adaptive" [((0 : ℚ), 2)] 30
      (fun _ => CaptureOutcome.ok) "out" (by decide) (by simp)
  exact ⟨h.1, h.2.2.2⟩

/-- C8 counterexample: with two detected scenes and the capture of item 1
exiting non-zero, only one image is written (`midframes/0002.jpg`) yet the CLI
still prints `Extracted 2 images to midframes/` — the reported count M is the
number of midframe timecodes, not the number of images successfully written,
refuting the claim that M counts successful writes and may be less than N. -/
theorem C8_counterexample :
    (cliMain true "adaptive" true [((0 : ℚ), 2), (4, 6)]
        (fun i => if i = 1 then CaptureOutcome.nonZeroExit else CaptureOutcome.ok)
        "midframes").printed =
      ["Detected 2 scenes.", "Extracted 2 images to midframes/"] ∧
    (cliMain true "adaptive" true [((0 : ℚ), 2), (4, 6)]
        (fun i => if i = 1 then CaptureOutcome.nonZeroExit else CaptureOutcome.ok)
        "midframes").written = ["midframes/0002.jpg"] := by
  decide

/-- C8 (amended): on a completed run the CLI prints the two-line summary
`Detected N scenes.` / `Extracted M images to DIR/`, but M is the count of
midframe timecodes, which always equals the count N of detected scenes — the
printed M does not count the images successfully written and never differs
from N, even when individual extractions fail. -/
theorem C8_summary_counts (algorithm : String) (scene_list : List (ℚ × ℚ))
    (outcome : Nat → CaptureOutcome) (output : String)
    (halg : algorithm = "adaptive" ∨ algorithm = "content" ∨ algorithm = "threshold" ∨
      algorithm = "hist")
    (h : ∀ k, k < scene_list.length → outcome (1 + k) ≠ CaptureOutcome.toolNotFound) :
    (cliMain true algorithm true scene_list outcome output).printed =
      ["Detected " ++ toString scene_list.length ++ " scenes.",
        "Extracted " ++ toString scene_list.length ++ " images to " ++ output ++ "/"] ∧
    (cliMain true algorithm true scene_list outcome output).error? = none := by
  have h1 : detect_scenes true algorithm true scene_list =
      ⟨[DetectEvent.openVideo, DetectEvent.startVideo, DetectEvent.detectPass,
        DetectEvent.releaseVideo], none, scene_list⟩ := by
    rw [detect_scenes, if_pos rfl, if_pos halg, if_pos rfl]
  have hlen : (calculate_midframes scene_list).length = scene_list.length := by
    simp [calculate_midframes]
  have h' : ∀ k, k < (calculate_midframes scene_list).length →
      outcome (1 + k) ≠ CaptureOutcome.toolNotFound := by
    rwa [hlen]
  have h2 := extractLoopCli_complete outcome output "jpg" (calculate_midframes scene_list) 1 h'
  constructor
  · simp only [cliMain, h1, extract_frames, h2, hlen]
  · simp only [cliMain, h1, extract_frames, h2]

/-- Witness for C8 (amended): with one scene whose extraction fails, the
summary still reports one extracted image. -/
theorem C8_witness :
    (cliMain true "adaptive" true [((0 : ℚ), 2)]
        (fun _ => CaptureOutcome.nonZeroExit) "midframes").printed =
      ["Detected 1 scenes.", "Extracted 1 images to midframes/"] := by
  have h := (C8_summary_counts "adaptive" [((0 : ℚ), 2)]
      (fun _ => CaptureOutcome.nonZeroExit) "midframes" (by decide) (by decide)).1
  rw [h]
  decide

/-- C9: When detection completes with zero scenes the CLI orchestrator reaches
the end of the run with zero extracted images and no error, printing
`Detected 0 scenes.` / `Extracted 0 images to midframes/` — but the GUI
worker, on the same zero-scene outcome, ends with the final status
`Status: Extraction failed or was interrupted.` (its finally block overwrites
the benign `No scenes detected` status because the success flag was never
set) and it also skips `video_manager.release()` on that early return. -/
theorem C9_zero_scenes_behavior :
    (cliMain true "adaptive" true [] (fun _ => CaptureOutcome.ok) "midframes").printed =
      ["Detected 0 scenes.", "Extracted 0 images to midframes/"] ∧
    (cliMain true "adaptive" true [] (fun _ => CaptureOutcome.ok) "midframes").error? =
      none ∧
    (cliMain true "adaptive" true [] (fun _ => CaptureOutcome.ok) "midframes").written =
      [] ∧
    (run_extraction_thread_fn [] 30 (fun _ => CaptureOutcome.ok) "out").finalStatus =
      "Status: Extraction failed or was interrupted." ∧
    (run_extraction_thread_fn [] 30 (fun _ => CaptureOutcome.ok) "out").released = false := by
  decide
